import Mathlib

/-!
Verification of the raw-image modeling layer of `ubift`
(`src/ubift/src/framework/disk_image_layer/mtd.py`): the `Image` class
(geometry inference, out-of-band stripping, gap-filling partition map) and
the `Partition` class.

Byte buffers are modeled as `List Nat` (one entry per byte).  Python
integers are modeled as `Int`.  Python exceptions are modeled with
`Except PyErr`.
-/

set_option maxRecDepth 8000

/-- Python exceptions observable in this layer: the `UBIFTException` raised
by geometry inference (the spec's `GeometryUnknown`), `ZeroDivisionError`
from `%` / `//` with a zero divisor, and `AttributeError` from calling a
missing method. -/
inductive PyErr where
  | geometryUnknown
  | zeroDivisionError
  | attributeError
deriving Repr, DecidableEq

/-- Python slice `d[a : a + n]` for a nonnegative start `a` and length `n`
(clamped at the end of the buffer, as Python slices are).  All slice uses in
`mtd.py` have nonnegative bounds. -/
def pySlice (d : List Nat) (a n : Nat) : List Nat :=
  (d.drop a).take n

/-- Modelled from the spec: the byte-level signature search primitive
`find_signature` (defined in `ubift.src.framework.base`, which is not part
of the visible source): given a buffer and a byte pattern it returns the
first matching offset, or `-1` when the pattern occurs nowhere. -/
def find_signature (d pat : List Nat) : Int :=
  match (List.range d.length).find? (fun i => pySlice d i pat.length == pat) with
  | some i => Int.ofNat i
  | none => -1

/-- Modelled from the spec: the 4-byte magic signature
`UBI_EC_HDR.__magic__` of an erase-counter header (defined in
`ubift.src.framework.volume_layer.ubi_structs`, not part of the visible
source).  `mtd.py` compares 4-byte slices against it.  The concrete value is
the ASCII bytes of the UBI erase-counter magic. -/
def ubi_ec_magic : List Nat := [85, 66, 73, 35]

/-- Big-endian 32-bit read at offset `o`, bytes past the end reading as 0. -/
def be32 (d : List Nat) (o : Nat) : Nat :=
  d.getD o 0 * 16777216 + d.getD (o + 1) 0 * 65536 + d.getD (o + 2) 0 * 256 + d.getD (o + 3) 0

/-- Modelled from the spec: parsing `UBI_EC_HDR(data, offset)` (struct
definition in `ubi_structs`, not part of the visible source) and reading its
`vid_hdr_offset` field — the declared offset to the volume-identifier
header, a 32-bit big-endian field at byte 16 of the header. -/
def vid_hdr_offset (d : List Nat) (m : Nat) : Int :=
  Int.ofNat (be32 d (m + 16))

/-- `Image._guess_page_size(data)`: find the first erase-counter-header
magic; raise if absent; parse the header's `vid_hdr_offset` field; return it
if positive, otherwise raise. -/
def guess_page_size (d : List Nat) : Except PyErr Int :=
  if find_signature d ubi_ec_magic < 0 then .error .geometryUnknown
  else if vid_hdr_offset d (find_signature d ubi_ec_magic).toNat > 0 then
    .ok (vid_hdr_offset d (find_signature d ubi_ec_magic).toNat)
  else .error .geometryUnknown

/-- The candidate block size at loop value `v` in `Image._guess_block_size`:
`v * page_size` when no OOB region is declared (`oob_size < 0`), otherwise
`v * page_size + v * oob_size`. -/
def bs_candidate (ps oob : Int) (v : Nat) : Int :=
  if oob < 0 then (v : Int) * ps else (v : Int) * ps + (v : Int) * oob

/-- The recurrence test of `Image._guess_block_size` at loop value `v`:
`data[m0 + candidate : m0 + candidate + 4] == UBI_EC_HDR.__magic__`. -/
def bs_match (d : List Nat) (m0 : Nat) (ps oob : Int) (v : Nat) : Bool :=
  pySlice d (m0 + (bs_candidate ps oob v).toNat) 4 == ubi_ec_magic

/-- `Image._guess_block_size(data)` with the already-resolved `page_size`
and the declared `oob_size`.  It scans candidates for loop values 1..511
(Python `range(1, 512)`) and, at the first match with enumerate index `i`,
returns `page_size * (i + 1)` — i.e. `page_size * v` for the matched loop
value `v`, not the candidate itself. -/
def guess_block_size (d : List Nat) (ps oob : Int) : Except PyErr Int :=
  if find_signature d ubi_ec_magic < 0 then .error .geometryUnknown
  else
    match (List.range' 1 511).find?
        (bs_match d (find_signature d ubi_ec_magic).toNat ps oob) with
    | some v => .ok (ps * (v : Int))
    | none => .error .geometryUnknown

/-- The loop of `Image.strip_oob`: `for page in range(0, len(data), stride):
stripped += data[page : page + page_size]`.  Python's `range(0, n, stride)`
has `⌈n / stride⌉` elements.  In the source the stride is the literal
constant `2112`. -/
def strip_chunks (d : List Nat) (page_size stride : Nat) : List Nat :=
  ((List.range' 0 ((d.length + (stride - 1)) / stride) stride).map
    (fun page => pySlice d page page_size)).flatten

/-- `Image.strip_oob(data, block_size, page_size, oob_size)`.  The local
computations `pages = block_size // page_size`,
`block_size = block_size + pages * oob_size` and
`blocks = len(data) // block_size` are dead code except that a zero divisor
raises `ZeroDivisionError`; the loop itself walks the buffer with the fixed
stride `2112`, keeping the leading `page_size` bytes of each stride.
Callers pass a nonnegative `page_size`, which is what the `pySlice` model of
`data[page : page + page_size]` assumes. -/
def strip_oob (d : List Nat) (block_size page_size oob_size : Int) : Except PyErr (List Nat) :=
  if page_size = 0 then .error .zeroDivisionError
  else if block_size + block_size.fdiv page_size * oob_size = 0 then .error .zeroDivisionError
  else .ok (strip_chunks d page_size.toNat 2112)

/-- Modelled from the spec: the intended out-of-band stripping, whose
physical stride is derived from the declared parameters as
`page_size + oob_size` rather than a fixed constant, keeping the leading
`page_size` bytes of each stride. -/
def strip_oob_spec (d : List Nat) (page_size oob_size : Nat) : List Nat :=
  strip_chunks d page_size (page_size + oob_size)

/-- Whether `a % b == 0` in Python: raises `ZeroDivisionError` when `b = 0`,
otherwise `a % b` is zero exactly when `b` divides `a` (Python's `%` takes
the divisor's sign but a zero remainder is zero either way). -/
def pymodIsZero (a b : Int) : Except PyErr Bool :=
  if b = 0 then .error .zeroDivisionError else .ok (decide (b ∣ a))

/-- The geometry-bearing state of an `Image` after `__init__`:
`self._data` (post-stripping when `oob_size >= 0`), `self._block_size`,
`self._page_size`, `self._oob_size`. -/
structure Image where
  data : List Nat
  block_size : Int
  page_size : Int
  oob_size : Int
deriving Repr, DecidableEq

/-- Result of `Image.__init__`: the constructed image plus whether each of
the two divisibility checks fired its log message (`ubiftlog.error`), so the
advisory diagnostics are observable. -/
structure InitResult where
  img : Image
  warn_block : Bool
  warn_page : Bool
deriving Repr, DecidableEq

/-- `Image.__init__(data, block_size, page_size, oob_size)`, following the
source order exactly: resolve `page_size` (supplied if positive, else
guessed from the raw `data`), then `block_size` (supplied if positive, else
guessed from the raw `data` with the resolved page size), then set
`self._data` to `data` if `oob_size < 0` else `strip_oob(data, block_size,
page_size, oob_size)` with the resolved sizes, then run the two divisibility
checks `len(self._data) % block_size` and `block_size % page_size` against
the ORIGINAL constructor parameters (which log on a nonzero remainder and
raise `ZeroDivisionError` on a zero parameter). -/
def Image.init (data : List Nat) (block_size page_size oob_size : Int) :
    Except PyErr InitResult :=
  match (if page_size > 0 then .ok page_size else guess_page_size data : Except PyErr Int) with
  | .error e => .error e
  | .ok ps =>
    match (if block_size > 0 then .ok block_size else guess_block_size data ps oob_size :
        Except PyErr Int) with
    | .error e => .error e
    | .ok bs =>
      match (if oob_size < 0 then .ok data else strip_oob data bs ps oob_size :
          Except PyErr (List Nat)) with
      | .error e => .error e
      | .ok d =>
        match pymodIsZero (d.length : Int) block_size with
        | .error e => .error e
        | .ok z1 =>
          match pymodIsZero block_size page_size with
          | .error e => .error e
          | .ok z2 => .ok ⟨⟨d, bs, ps, oob_size⟩, !z1, !z2⟩

/-- A `Partition` value: inclusive byte bounds and a display name.  `pid`
models Python object identity (two distinct `Partition` objects are never
`==` because the class defines no `__eq__`); `get_full_partitions` relies on
identity through `list.index`. -/
structure Partition where
  pid : Nat
  offset : Int
  pend : Int
  name : String
deriving Repr, DecidableEq

/-- `Partition.__init__` as observed through its divisibility check: with
`image.block_size = 0` the expression `len(self) % self.image.block_size`
raises `ZeroDivisionError`; otherwise the partition is built (object
identity immaterial here, `pid 0`) together with whether the misalignment
log message fired (`length % block_size != 0`). -/
def Partition.mkChecked (img : Image) (offset pend : Int) (name : String) :
    Except PyErr (Partition × Bool) :=
  if img.block_size = 0 then .error .zeroDivisionError
  else .ok (⟨0, offset, pend, name⟩, decide (¬ img.block_size ∣ (pend - offset + 1)))

/-- `list.sort(key=lambda p: p.offset)`: a stable sort by offset.  Insertion
sort with `≤` on the key is stable, so it agrees with Python's Timsort. -/
def sortByOffset (l : List Partition) : List Partition :=
  l.insertionSort (fun a b => a.offset ≤ b.offset)

/-- `full_partitions.index(partition)` under Python object identity:
the first position whose `pid` matches.  (Python raises `ValueError` when
the element is absent; in every reachable call the element is present.) -/
def idxOfPid (l : List Partition) (pid : Nat) : Nat :=
  l.findIdx (fun q => q.pid == pid)

/-- The loop of `Image.get_full_partitions`, iterating over the sorted live
list while mutating the copied list `full`.  `first` tells whether we are at
enumerate index 0; `ctr` supplies fresh object identities for synthesized
partitions.  At the last element (`i + 1 >= len`) only the trailing filler
is considered and the loop `break`s — in particular the leading-filler
branch is unreachable when the list has exactly one element. -/
def gfpGo (dataLen : Int) : List Partition → Bool → List Partition → Nat → List Partition
  | [], _, full, _ => full
  | [p], _, full, ctr =>
      if p.pend ≠ dataLen - 1 then full ++ [⟨ctr, p.pend + 1, dataLen - 1, "Unallocated"⟩]
      else full
  | p :: q :: rest, first, full, ctr =>
      let st := if first ∧ p.offset ≠ 0 then
          ((⟨ctr, 0, p.offset - 1, "Unallocated"⟩ : Partition) :: full, ctr + 1)
        else (full, ctr)
      let st2 := if p.pend + 1 ≠ q.offset then
          (st.1.insertIdx (idxOfPid st.1 p.pid + 1)
            ⟨st.2, p.pend + 1, q.offset - 1, "Unallocated"⟩, st.2 + 1)
        else st
      gfpGo dataLen (q :: rest) false st2.1 st2.2

/-- `Image.get_full_partitions`, acting on the image's data length and its
stored partition list `self._partitions`.  Returns the new stored list (the
`self.partitions.sort(...)` in-place sort is persistent) and the returned
list, or `none` when the call raises: with zero stored partitions the
`partitions` property returns a single bare `Partition` object, and
`self.partitions.copy()` raises `AttributeError` before anything else
happens.  The copy is taken BEFORE the sort, so `full` starts in the
original declaration order.  Fresh object identities start above every
stored `pid`. -/
def get_full_partitions (dataLen : Nat) (stored : List Partition) :
    List Partition × Option (List Partition) :=
  match stored with
  | [] => (stored, none)
  | _ =>
    let sorted := sortByOffset stored
    let ctr0 := (stored.map (fun p => p.pid)).foldr max 0 + 1
    (sorted, some (gfpGo (dataLen : Int) sorted true stored ctr0))

instance : IsTotal Partition (fun a b => a.offset ≤ b.offset) :=
  ⟨fun a b => le_total a.offset b.offset⟩

instance : IsTrans Partition (fun a b => a.offset ≤ b.offset) :=
  ⟨fun _ _ _ h h2 => le_trans h h2⟩

/-- A 60-byte buffer whose only erase-counter-header magic sits at offset
40, with the header's `vid_hdr_offset` field (bytes 56..59, big-endian)
holding 32. -/
def c4data : List Nat :=
  List.replicate 40 0 ++ ubi_ec_magic ++ List.replicate 12 0 ++ [0, 0, 0, 32]

/-- A 36-byte buffer with the erase-counter-header magic at offsets 0 and
32 and the `vid_hdr_offset` field (bytes 16..19) holding 32, so that with
both sizes unknown and `oob_size 0` page-size inference yields 32 and
block-size inference finds the recurrence at candidate `1 * 32 + 1 * 0`. -/
def c4wdata : List Nat :=
  ubi_ec_magic ++ List.replicate 12 0 ++ [0, 0, 0, 32] ++ List.replicate 12 0 ++ ubi_ec_magic

/-- A 580-byte buffer with the erase-counter-header magic at offsets 0 and
576 = 1 * (512 + 64): with `page_size 512` and `oob_size 64` the first
block-size candidate already recurs. -/
def c5data : List Nat :=
  ubi_ec_magic ++ List.replicate 572 0 ++ ubi_ec_magic

/-- A 700-byte buffer with the erase-counter-header magic at offsets 0 and
512, so block-size inference with `page_size 512` and no OOB yields 512. -/
def c8data : List Nat :=
  ubi_ec_magic ++ List.replicate 508 0 ++ ubi_ec_magic ++ List.replicate 184 0

/-- Two declared partitions of an 8192-byte image, stored in reverse offset
order: `"b" = [4096, 8191]` before `"a" = [0, 4095]`. -/
def c9stored : List Partition :=
  [⟨0, 4096, 8191, "b"⟩, ⟨1, 0, 4095, "a"⟩]

/-! ### Helper lemmas -/

theorem guess_page_pos {d : List Nat} {v : Int} (h : guess_page_size d = .ok v) : 0 < v := by
  unfold guess_page_size at h
  split at h
  · exact absurd h (by simp)
  · split at h
    · cases h
      assumption
    · exact absurd h (by simp)

theorem guess_page_err {d : List Nat} {e : PyErr} (h : guess_page_size d = .error e) :
    e = .geometryUnknown := by
  unfold guess_page_size at h
  split at h
  · cases h; rfl
  · split at h
    · exact absurd h (by simp)
    · cases h; rfl

theorem guess_block_shape {d : List Nat} {ps oob g : Int}
    (h : guess_block_size d ps oob = .ok g) :
    ∃ m0 v, find_signature d ubi_ec_magic = Int.ofNat m0 ∧
      (List.range' 1 511).find? (bs_match d m0 ps oob) = some v ∧ g = ps * (v : Int) := by
  unfold guess_block_size at h
  split at h
  · exact absurd h (by simp)
  · rename_i hneg
    split at h
    · rename_i v hv
      cases h
      exact ⟨(find_signature d ubi_ec_magic).toNat, v,
        (Int.toNat_of_nonneg (by omega)).symm, hv, rfl⟩
    · exact absurd h (by simp)

theorem guess_block_pos {d : List Nat} {ps oob g : Int} (hps : 0 < ps)
    (h : guess_block_size d ps oob = .ok g) : 0 < g := by
  obtain ⟨m0, v, -, hv, hg⟩ := guess_block_shape h
  have hmem := List.mem_of_find?_eq_some hv
  have h1 : 1 ≤ v := (List.mem_range'_1.mp hmem).1
  subst hg
  have : (0 : Int) < (v : Int) := by exact_mod_cast h1
  exact mul_pos hps this

theorem guess_block_err {d : List Nat} {ps oob : Int} {e : PyErr}
    (h : guess_block_size d ps oob = .error e) : e = .geometryUnknown := by
  unfold guess_block_size at h
  split at h
  · cases h; rfl
  · split at h
    · exact absurd h (by simp)
    · cases h; rfl

theorem strip_oob_ok {d : List Nat} {bs ps oob : Int} (hps : 0 < ps) (hbs : 0 < bs)
    (hoob : 0 ≤ oob) : strip_oob d bs ps oob = .ok (strip_chunks d ps.toNat 2112) := by
  have hfd : 0 ≤ bs.fdiv ps := Int.fdiv_nonneg (le_of_lt hbs) (le_of_lt hps)
  have h2 : bs + bs.fdiv ps * oob ≠ 0 := by nlinarith
  simp only [strip_oob, if_neg (by omega : ¬ ps = 0), if_neg h2]

theorem pySlice_replicate (a m i n : Nat) :
    pySlice (List.replicate m a) i n = List.replicate (min n (m - i)) a := by
  simp [pySlice, List.drop_replicate, List.take_replicate]

theorem init_supplied {data : List Nat} {bs ps oob : Int} (hps : ps > 0) (hbs : bs > 0)
    (hoob : oob < 0) :
    Image.init data bs ps oob =
      .ok ⟨⟨data, bs, ps, oob⟩, !decide (bs ∣ (data.length : Int)), !decide (ps ∣ bs)⟩ := by
  unfold Image.init
  simp only [if_pos hps, if_pos hbs, if_pos hoob]
  simp [pymodIsZero, hbs.ne', hps.ne']

theorem find?_range'_min {p : Nat → Bool} :
    ∀ {n s v : Nat}, (List.range' s n).find? p = some v →
      ∀ w ∈ List.range' s n, p w = true → v ≤ w := by
  intro n
  induction n with
  | zero => intro s v h; simp [List.range'] at h
  | succ k ih =>
    intro s v h w hw hpw
    rw [List.range'_succ] at h hw
    rw [List.find?_cons] at h
    rcases List.mem_cons.mp hw with hw | hw
    · subst hw
      cases hps : p w
      · rw [hps] at h
        exact absurd hpw (by simp [hps])
      · rw [hps] at h
        cases h
        exact le_refl _
    · cases hps : p s
      · rw [hps] at h
        exact ih h w hw hpw
      · rw [hps] at h
        cases h
        exact le_of_lt (List.mem_range'_1.mp hw).1

theorem mem_insertIdx_of_mem {α : Type} {a b : α} :
    ∀ {n : Nat} {l : List α}, a ∈ l → a ∈ l.insertIdx n b := by
  intro n
  induction n with
  | zero => intro l h; exact List.mem_cons_of_mem _ h
  | succ k ih =>
    intro l h
    match l with
    | [] => cases h
    | x :: xs =>
      rw [List.insertIdx_succ_cons]
      rcases List.mem_cons.mp h with h | h
      · exact h ▸ List.mem_cons_self _ _
      · exact List.mem_cons_of_mem _ (ih h)

theorem mem_gfpGo {dataLen : Int} :
    ∀ (l : List Partition) (first : Bool) (full : List Partition) (ctr : Nat) {p : Partition},
      p ∈ full → p ∈ gfpGo dataLen l first full ctr := by
  intro l
  induction l with
  | nil => intro first full ctr p h; exact h
  | cons x xs ih =>
    intro first full ctr p h
    match xs with
    | [] =>
      unfold gfpGo
      split
      · exact List.mem_append_left _ h
      · exact h
    | q :: rest =>
      unfold gfpGo
      apply ih
      split
      · exact mem_insertIdx_of_mem (by split <;> simp [h])
      · split <;> simp [h]

/-! ### Claim theorems -/

/-- C1.  The concrete scenario of the claim fails on the code: for an
8192-byte image with the single declared partition `[2048, 4095]` named
"root", `get_full_partitions()` returns only TWO partitions — `root
[2048, 4095]` followed by `Unallocated [4096, 8191]` — because the loop
`break`s at the last (here: only) partition before the leading-filler branch
can run, so the gap `[0, 2047]` is never filled and the result does not tile
`[0, 8191]`. -/
theorem C1_code_eval :
    get_full_partitions 8192 [⟨0, 2048, 4095, "root"⟩] =
      ([⟨0, 2048, 4095, "root"⟩],
        some [⟨0, 2048, 4095, "root"⟩, ⟨1, 4096, 8191, "Unallocated"⟩]) := by
  decide

/-- C2.  For an image with zero declared partitions, `get_full_partitions()`
does not return a single "Unallocated" partition: the `partitions` property
returns a bare `Partition` object, and `self.partitions.copy()` raises
`AttributeError` (modeled as `none`).  Construction of the 8192-byte image
with `block_size 2048` and `page_size 512` itself succeeds. -/
theorem C2_code_eval :
    Image.init (List.replicate 8192 0) 2048 512 (-1) =
      .ok ⟨⟨List.replicate 8192 0, 2048, 512, -1⟩, false, false⟩ ∧
    get_full_partitions 8192 [] = ([], none) := by
  constructor
  · rw [init_supplied (by norm_num) (by norm_num) (by norm_num)]
    norm_num [List.length_replicate]
  · rfl

/-- C3.  `strip_oob` walks the buffer with the fixed physical stride `2112`
instead of the declared `page_size + oob_size`: on a 1056-byte buffer with
`page_size 512` and `oob_size 16` (true stride 528) the code keeps only the
first 512 bytes, while stripping with the stride derived from the declared
parameters keeps 1024 payload bytes. -/
theorem C3_code_eval :
    strip_oob (List.replicate 1056 3) 1056 512 16 = .ok (List.replicate 512 3) ∧
    strip_oob_spec (List.replicate 1056 3) 512 16 = List.replicate 1024 3 ∧
    (List.replicate 512 3 : List Nat) ≠ List.replicate 1024 3 := by
  refine ⟨by rfl, by rfl, fun h => ?_⟩
  have := congrArg List.length h
  simp only [List.length_replicate] at this
  omega

/-- C6.  Stripping an already-stripped buffer with `oob_size = 0` is NOT a
no-op: because the walk strides the fixed constant `2112` and keeps only
`page_size` bytes of each stride, a second pass with `oob_size = 0` drops
bytes again.  On a 2113-byte buffer with `page_size 2048` the first strip
yields 2049 bytes and stripping that result with `oob_size = 0` yields only
2048 bytes. -/
theorem C6_code_eval :
    strip_oob (List.replicate 2113 7) 2048 2048 0 = .ok (List.replicate 2049 7) ∧
    strip_oob (List.replicate 2049 7) 2048 2048 0 = .ok (List.replicate 2048 7) ∧
    (List.replicate 2048 7 : List Nat) ≠ List.replicate 2049 7 := by
  refine ⟨?_, ?_, fun h => ?_⟩
  · rw [strip_oob_ok (by norm_num) (by norm_num) (by norm_num),
      show ((2048 : Int).toNat) = 2048 from rfl]
    unfold strip_chunks
    rw [List.length_replicate]
    norm_num
    rw [show List.range' 0 2 2112 = [0, 2112] from rfl]
    simp only [List.map_cons, List.map_nil, pySlice_replicate, List.flatten_cons,
      List.flatten_nil]
    norm_num
    rw [show (2049 : Nat) = 2048 + 1 from rfl, List.replicate_add]
    congr 1
  · rw [strip_oob_ok (by norm_num) (by norm_num) (by norm_num),
      show ((2048 : Int).toNat) = 2048 from rfl]
    unfold strip_chunks
    rw [List.length_replicate]
    norm_num
    rw [pySlice_replicate]
    norm_num
  · have := congrArg List.length h
    simp only [List.length_replicate] at this
    omega

/-- C7.  Inference failure: a buffer with zero occurrences of the
erase-counter-header magic makes `find_signature` return `-1` and both
`_guess_page_size` and `_guess_block_size` raise the fatal inference error
(the spec's `GeometryUnknown`); the same error is raised when a signature
exists but its `vid_hdr_offset` field is not positive, and when no
block-size candidate in range 1..511 recurs. -/
theorem C7_inference_failure (d : List Nat) (ps oob : Int) :
    ((∀ i : Nat, pySlice d i ubi_ec_magic.length ≠ ubi_ec_magic) →
      find_signature d ubi_ec_magic = -1 ∧
      guess_page_size d = .error .geometryUnknown ∧
      guess_block_size d ps oob = .error .geometryUnknown) ∧
    (∀ m : Nat, find_signature d ubi_ec_magic = Int.ofNat m →
      vid_hdr_offset d m ≤ 0 →
      guess_page_size d = .error .geometryUnknown) ∧
    (∀ m : Nat, find_signature d ubi_ec_magic = Int.ofNat m →
      (∀ v ∈ List.range' 1 511, bs_match d m ps oob v = false) →
      guess_block_size d ps oob = .error .geometryUnknown) := by
  refine ⟨fun h => ?_, fun m hm hv => ?_, fun m hm hall => ?_⟩
  · have hnone : (List.range d.length).find?
        (fun i => pySlice d i ubi_ec_magic.length == ubi_ec_magic) = none := by
      rw [List.find?_eq_none]
      intro i _
      simp only [beq_iff_eq]
      exact h i
    have hfs : find_signature d ubi_ec_magic = -1 := by
      unfold find_signature
      rw [hnone]
    refine ⟨hfs, ?_, ?_⟩
    · unfold guess_page_size
      rw [hfs]
      norm_num
    · unfold guess_block_size
      rw [hfs]
      norm_num
  · unfold guess_page_size
    rw [hm]
    rw [show (Int.ofNat m).toNat = m from rfl]
    rw [if_neg (show ¬ Int.ofNat m < 0 from not_lt.mpr (Int.ofNat_nonneg m)),
      if_neg (not_lt.mpr hv)]
  · unfold guess_block_size
    rw [hm]
    rw [show (Int.ofNat m).toNat = m from rfl]
    rw [if_neg (show ¬ Int.ofNat m < 0 from not_lt.mpr (Int.ofNat_nonneg m))]
    have hnone : (List.range' 1 511).find? (bs_match d m ps oob) = none := by
      rw [List.find?_eq_none]
      intro v hv
      simp [hall v hv]
    rw [hnone]

/-- Witness for C7: the empty buffer has no magic and both inferences fail
on it; a buffer that is just the magic followed by a zero `vid_hdr_offset`
field makes page-size inference fail; a buffer that is just the magic (no
recurrence at any candidate) makes block-size inference fail. -/
theorem C7_witness :
    find_signature [] ubi_ec_magic = -1 ∧
    guess_page_size [] = .error .geometryUnknown ∧
    guess_block_size [] 512 (-1) = .error .geometryUnknown ∧
    guess_page_size (ubi_ec_magic ++ List.replicate 16 0) = .error .geometryUnknown ∧
    guess_block_size ubi_ec_magic 512 (-1) = .error .geometryUnknown := by
  obtain ⟨h1, h2, h3⟩ :=
    (C7_inference_failure [] 512 (-1)).1 (fun i => by simp [pySlice, ubi_ec_magic])
  exact ⟨h1, h2, h3,
    (C7_inference_failure (ubi_ec_magic ++ List.replicate 16 0) 512 (-1)).2.1 0
      (by decide) (by decide),
    (C7_inference_failure ubi_ec_magic 512 (-1)).2.2 0 (by decide) (by decide)⟩

/-- C9.  Frame of `get_full_partitions`: the stored live list is reordered
in place — afterwards it is a permutation of the declared list, sorted by
offset, with nothing added (in particular no synthetic "Unallocated" entry)
— and every declared partition appears in the returned list unchanged
(same offset, end and name: never split or truncated). -/
theorem C9_gap_fill_frame (dataLen : Nat) (stored : List Partition) :
    (get_full_partitions dataLen stored).1.Perm stored ∧
    List.Sorted (fun a b => a.offset ≤ b.offset) (get_full_partitions dataLen stored).1 ∧
    ∀ p ∈ stored, ∀ l, (get_full_partitions dataLen stored).2 = some l → p ∈ l := by
  cases stored with
  | nil =>
    refine ⟨by simp [get_full_partitions], by simp [get_full_partitions, List.Sorted], ?_⟩
    intro p hp
    cases hp
  | cons x xs =>
    refine ⟨List.perm_insertionSort _ _, ?_, ?_⟩
    · exact List.sorted_insertionSort _ _
    · intro p hp l hl
      simp only [get_full_partitions] at hl
      cases hl
      exact mem_gfpGo _ _ _ _ hp

/-- Witness for C9 on two declared partitions stored in reverse order over
an 8192-byte image: the stored list is re-sorted to a permutation of itself
and the declared partition "b" appears unchanged in the returned list. -/
theorem C9_witness :
    (get_full_partitions 8192 c9stored).1.Perm c9stored ∧
    List.Sorted (fun a b => a.offset ≤ b.offset) (get_full_partitions 8192 c9stored).1 ∧
    (⟨0, 4096, 8191, "b"⟩ : Partition) ∈
      [(⟨0, 4096, 8191, "b"⟩ : Partition), ⟨1, 0, 4095, "a"⟩] := by
  refine ⟨(C9_gap_fill_frame 8192 c9stored).1, (C9_gap_fill_frame 8192 c9stored).2.1, ?_⟩
  exact (C9_gap_fill_frame 8192 c9stored).2.2 ⟨0, 4096, 8191, "b"⟩ (by decide)
    [⟨0, 4096, 8191, "b"⟩, ⟨1, 0, 4095, "a"⟩] (by decide)

/-- C10.  Every `Image` construction that completes without raising yields
positive `page_size` and `block_size` (supplied positive values are kept;
inferred values are positive by construction), so a subsequent
`Partition.__init__`'s modulo of its length by `image.block_size` never
divides by zero. -/
theorem C10_positive_geometry (data : List Nat) (bs ps oob : Int) (r : InitResult)
    (h : Image.init data bs ps oob = .ok r) :
    0 < r.img.page_size ∧ 0 < r.img.block_size ∧
    ∀ o e nm, (Partition.mkChecked r.img o e nm).isOk = true := by
  unfold Image.init at h
  split at h
  · cases h
  · rename_i ps1 heq1
    split at h
    · cases h
    · rename_i bs1 heq2
      split at h
      · cases h
      · rename_i d1 heq3
        split at h
        · cases h
        · rename_i z1 heq4
          split at h
          · cases h
          · rename_i z2 heq5
            cases h
            have hps1 : 0 < ps1 := by
              split at heq1
              · cases heq1
                assumption
              · exact guess_page_pos heq1
            have hbs1 : 0 < bs1 := by
              split at heq2
              · cases heq2
                assumption
              · exact guess_block_pos hps1 heq2
            refine ⟨hps1, hbs1, fun o e nm => ?_⟩
            unfold Partition.mkChecked
            rw [if_neg (by omega : ¬ bs1 = 0)]
            rfl

/-- Witness for C10: a trivially-supplied construction succeeds and the
theorem yields positive geometry and a non-raising `Partition` check. -/
theorem C10_witness :
    0 < (⟨⟨[], 2048, 512, -1⟩, false, false⟩ : InitResult).img.page_size ∧
    0 < (⟨⟨[], 2048, 512, -1⟩, false, false⟩ : InitResult).img.block_size ∧
    ∀ o e nm,
      (Partition.mkChecked (⟨⟨[], 2048, 512, -1⟩, false, false⟩ : InitResult).img o e nm).isOk
        = true :=
  C10_positive_geometry [] 2048 512 (-1) ⟨⟨[], 2048, 512, -1⟩, false, false⟩ (by rfl)

/-- C4 counterexample.  Stripping is NOT applied before geometry inference:
constructing an image from `c4data` (only magic at offset 40, declared
field 32) with `oob_size 0` and unknown `page_size` infers `page_size 32`
from the RAW buffer, after which stripping discards offset 40; page-size
inference on the image's own (stripped) data fails outright, so the inferred
value cannot have been computed from the stripped buffer. -/
theorem C4_counterexample :
    Image.init c4data 2048 (-1) 0 =
      .ok ⟨⟨List.replicate 32 0, 2048, 32, 0⟩, true, false⟩ ∧
    guess_page_size c4data = .ok 32 ∧
    guess_page_size (List.replicate 32 0) = .error .geometryUnknown :=
  ⟨rfl, rfl, rfl⟩

/-- C4 as amended: for every construction with `oob_size >= 0`, geometry
inference runs on the RAW buffer — an unknown page size is
`_guess_page_size` of the raw data, and an unknown block size is
`_guess_block_size` of the raw data (its candidates compensating for
interleaved OOB) with the resolved page size — and out-of-band stripping is
applied afterwards, to the raw buffer with the already-resolved geometry. -/
theorem C4_amended (data : List Nat) (bs ps oob : Int) (r : InitResult)
    (hoob : ¬ oob < 0) (h : Image.init data bs ps oob = .ok r) :
    (¬ ps > 0 → guess_page_size data = .ok r.img.page_size) ∧
    (¬ bs > 0 → guess_block_size data r.img.page_size oob = .ok r.img.block_size) ∧
    strip_oob data r.img.block_size r.img.page_size oob = .ok r.img.data := by
  unfold Image.init at h
  split at h
  · cases h
  · rename_i ps1 heq1
    split at h
    · cases h
    · rename_i bs1 heq2
      split at h
      · cases h
      · rename_i d1 heq3
        rw [if_neg hoob] at heq3
        split at h
        · cases h
        · split at h
          · cases h
          · cases h
            refine ⟨fun hps => ?_, fun hbs => ?_, heq3⟩
            · rw [if_neg hps] at heq1
              exact heq1
            · rw [if_neg hbs] at heq2
              exact heq2

/-- Witness for C4 (amended): a construction from `c4wdata` with BOTH sizes
unknown and `oob_size 0` — page size 32 and block size 32 are both inferred
from the raw buffer, and the image data is the post-inference strip of the
raw buffer. -/
theorem C4_witness :
    guess_page_size c4wdata = .ok 32 ∧
    guess_block_size c4wdata 32 0 = .ok 32 ∧
    strip_oob c4wdata 32 32 0 =
      .ok (ubi_ec_magic ++ List.replicate 12 0 ++ [0, 0, 0, 32] ++ List.replicate 12 0) := by
  obtain ⟨h1, h2, h3⟩ := C4_amended c4wdata (-1) (-1) 0
    ⟨⟨ubi_ec_magic ++ List.replicate 12 0 ++ [0, 0, 0, 32] ++ List.replicate 12 0, 32, 32, 0⟩,
      false, false⟩ (by decide) (by rfl)
  exact ⟨h1 (by decide), h2 (by decide), h3⟩

/-- C5 counterexample.  With `page_size 512` and declared `oob_size 64`, the
buffer `c5data` (magic at 0 and at 576) matches the FIRST candidate
`1 * 512 + 1 * 64 = 576`, but the guessed block size is `512 * 1 = 512`, not
the candidate size 576: the return value strips the OOB component. -/
theorem C5_counterexample :
    guess_block_size c5data 512 64 = .ok 512 ∧
    find_signature c5data ubi_ec_magic = Int.ofNat 0 ∧
    (List.range' 1 511).find? (bs_match c5data 0 512 64) = some 1 ∧
    bs_candidate 512 64 1 = 576 ∧ (512 : Int) ≠ 576 :=
  ⟨rfl, rfl, rfl, rfl, by decide⟩

/-- C5 as amended: block-size inference tests the candidates
`v * page_size` (plus `v * oob_size` when an OOB region is declared) for
loop values 1..511 against recurrence of the magic at `m0 + candidate`, and
at the smallest matching loop value `v` returns `page_size * v` — the
candidate MINUS its OOB component, equal to the candidate itself only when
no OOB region is declared; it fails with the fatal inference error when no
candidate in range matches. -/
theorem C5_amended (d : List Nat) (ps oob : Int) :
    (∀ g, guess_block_size d ps oob = .ok g →
      ∃ m0 v, find_signature d ubi_ec_magic = Int.ofNat m0 ∧
        v ∈ List.range' 1 511 ∧ bs_match d m0 ps oob v = true ∧
        (∀ w ∈ List.range' 1 511, bs_match d m0 ps oob w = true → v ≤ w) ∧
        g = ps * (v : Int) ∧ (oob < 0 → g = bs_candidate ps oob v)) ∧
    (∀ m0 : Nat, find_signature d ubi_ec_magic = Int.ofNat m0 →
      (∀ v ∈ List.range' 1 511, bs_match d m0 ps oob v = false) →
      guess_block_size d ps oob = .error .geometryUnknown) := by
  constructor
  · intro g hg
    obtain ⟨m0, v, hfs, hfind, hgv⟩ := guess_block_shape hg
    refine ⟨m0, v, hfs, List.mem_of_find?_eq_some hfind, List.find?_some hfind,
      fun w hw hpw => find?_range'_min hfind w hw hpw, hgv, fun hoob => ?_⟩
    rw [hgv, bs_candidate, if_pos hoob]
    ring
  · intro m0 hm hall
    unfold guess_block_size
    rw [hm, show (Int.ofNat m0).toNat = m0 from rfl,
      if_neg (show ¬ Int.ofNat m0 < 0 from not_lt.mpr (Int.ofNat_nonneg m0))]
    rw [List.find?_eq_none.mpr (fun v hv => by simp [hall v hv])]

/-- Witness for C5 (amended): instantiated at `c5data` with `page_size 512`
and `oob_size 64` for the success case, and at a magic-only buffer with no
recurrence for the failure case. -/
theorem C5_witness :
    (∃ m0 v, find_signature c5data ubi_ec_magic = Int.ofNat m0 ∧
      v ∈ List.range' 1 511 ∧ bs_match c5data m0 512 64 v = true ∧
      (∀ w ∈ List.range' 1 511, bs_match c5data m0 512 64 w = true → v ≤ w) ∧
      (512 : Int) = 512 * (v : Int) ∧ ((64 : Int) < 0 → (512 : Int) = bs_candidate 512 64 v)) ∧
    guess_block_size ubi_ec_magic 512 (-1) = .error .geometryUnknown :=
  ⟨(C5_amended c5data 512 64).1 512 rfl,
    (C5_amended ubi_ec_magic 512 (-1)).2 0 (by decide) (by decide)⟩

/-- C8 counterexample.  The divisibility checks are made against the
ORIGINAL constructor parameters, not the resolved geometry: constructing
from `c8data` (700 bytes) with `block_size` unknown (`-1`) and
`page_size 512` resolves `block_size` to 512, which does NOT divide 700 —
yet no block warning is logged (the check computed `700 % -1 == 0`) — while
512 does divide the resolved block size 512, yet the page warning IS logged
(the check computed `-1 % 512 == 511 != 0`). -/
theorem C8_counterexample :
    Image.init c8data (-1) 512 (-1) = .ok ⟨⟨c8data, 512, 512, -1⟩, false, true⟩ ∧
    c8data.length = 700 ∧
    ¬ ((512 : Int) ∣ (700 : Int)) ∧ ((512 : Int) ∣ (512 : Int)) :=
  ⟨rfl, rfl, by decide, dvd_refl _⟩

/-- C8 as amended: the two divisibility checks are computed from the
SUPPLIED constructor parameters (sentinels included), not the resolved
geometry: when both parameters are nonzero, a successful construction logs
the block warning iff the supplied `block_size` does not divide the final
data length and the page warning iff the supplied `page_size` does not
divide the supplied `block_size`, and construction can only abort with the
fatal inference error — never because of the checks.  (With a supplied
parameter equal to exactly 0 the check itself raises `ZeroDivisionError`.) -/
theorem C8_amended (data : List Nat) (bs ps oob : Int) (hbs : bs ≠ 0) (hps : ps ≠ 0) :
    (∀ r, Image.init data bs ps oob = .ok r →
      (r.warn_block = true ↔ ¬ (bs ∣ (r.img.data.length : Int))) ∧
      (r.warn_page = true ↔ ¬ (ps ∣ bs))) ∧
    (∀ e, Image.init data bs ps oob = .error e → e = .geometryUnknown) := by
  constructor
  · intro r h
    unfold Image.init at h
    split at h
    · cases h
    · rename_i ps1 heq1
      split at h
      · cases h
      · rename_i bs1 heq2
        split at h
        · cases h
        · rename_i d1 heq3
          split at h
          · cases h
          · rename_i z1 heq4
            split at h
            · cases h
            · rename_i z2 heq5
              cases h
              unfold pymodIsZero at heq4 heq5
              rw [if_neg hbs] at heq4
              rw [if_neg hps] at heq5
              cases heq4
              cases heq5
              constructor
              · simp
              · simp
  · intro e h
    unfold Image.init at h
    split at h
    · rename_i e1 heq1
      cases h
      split at heq1
      · cases heq1
      · exact guess_page_err heq1
    · rename_i ps1 heq1
      split at h
      · rename_i e1 heq2
        cases h
        split at heq2
        · cases heq2
        · exact guess_block_err heq2
      · rename_i bs1 heq2
        have hps1 : 0 < ps1 := by
          split at heq1
          · cases heq1
            assumption
          · exact guess_page_pos heq1
        have hbs1 : 0 < bs1 := by
          split at heq2
          · cases heq2
            assumption
          · exact guess_block_pos hps1 heq2
        split at h
        · rename_i e1 heq3
          cases h
          split at heq3
          · cases heq3
          · rename_i hoob
            rw [strip_oob_ok hps1 hbs1 (by omega)] at heq3
            cases heq3
        · rename_i d1 heq3
          split at h
          · rename_i e1 heq4
            cases h
            unfold pymodIsZero at heq4
            rw [if_neg hbs] at heq4
            cases heq4
          · rename_i z1 heq4
            split at h
            · rename_i e1 heq5
              cases h
              unfold pymodIsZero at heq5
              rw [if_neg hps] at heq5
              cases heq5
            · cases h

/-- Witness for C8 (amended) at a trivially-supplied construction: neither
check fires, matching the supplied parameters 2048 and 512. -/
theorem C8_witness :
    ((⟨⟨[], 2048, 512, -1⟩, false, false⟩ : InitResult).warn_block = true ↔
      ¬ ((2048 : Int) ∣
        ((⟨⟨[], 2048, 512, -1⟩, false, false⟩ : InitResult).img.data.length : Int))) ∧
    ((⟨⟨[], 2048, 512, -1⟩, false, false⟩ : InitResult).warn_page = true ↔
      ¬ ((512 : Int) ∣ 2048)) :=
  (C8_amended [] 2048 512 (-1) (by decide) (by decide)).1
    ⟨⟨[], 2048, 512, -1⟩, false, false⟩ (by rfl)
